import Mathlib

/-!
Verification development for the SatPlatform repository.

This file shallowly embeds, in Lean 4, the data model and operations of the
SatPlatform coordination system:

* the `TaskDebugState` document and its component types, translated from
  `SatControlCenter/src/app/core/models/task-debug-state.model.ts`;
* the frontend services and components
  (`DebugService.sendDebugNote{FromSite}`, `ClientTaskStateService`,
  `DebugSenderComponent.sendNote`), translated from their TypeScript sources;
* the relay-hub core (Session/Group management, Task State store, Message
  Router).  The hub's Rust sources (`SatCloudService` `ws_server` module) are
  not part of the shipped source tree — only their TypeScript callers and the
  architecture documents are — so those parts are modelled from the
  specification, and each such definition is marked `Modelled from the spec:`.

JavaScript `number` values that the model carries (Unix-millisecond
timestamps) are embedded as `Int`; JavaScript `any` values are embedded as a
JSON value type `Json`.
-/

/-- JSON value, the embedding of a JavaScript/`serde_json` value.  Used for
TypeScript fields typed `any` and for wire payloads. -/
inductive Json where
  | null : Json
  | bool (b : Bool) : Json
  | num (n : Int) : Json
  | str (s : String) : Json
  | arr (items : List Json) : Json
  | obj (fields : List (String × Json)) : Json
deriving Repr

/-- Generic execution status, translated from the `ExecutionStatus` enum of
`task-debug-state.model.ts` (lines 10–22). -/
inductive ExecutionStatus where
  | pending
  | inProgress
  | paused
  | completedSuccess
  | completedFailure
  | skipped
  | aborted
  | error
  | blocked
  | awaitingInput
  | notApplicable
deriving DecidableEq, Repr

/-- The wire string of each `ExecutionStatus` member, as written in the
TypeScript enum initializers. -/
def ExecutionStatus.wire : ExecutionStatus → String
  | .pending => "PENDING"
  | .inProgress => "IN_PROGRESS"
  | .paused => "PAUSED"
  | .completedSuccess => "COMPLETED_SUCCESS"
  | .completedFailure => "COMPLETED_FAILURE"
  | .skipped => "SKIPPED"
  | .aborted => "ABORTED"
  | .error => "ERROR"
  | .blocked => "BLOCKED"
  | .awaitingInput => "AWAITING_INPUT"
  | .notApplicable => "NOT_APPLICABLE"

/-- The list of all `ExecutionStatus` members, in declaration order. -/
def ExecutionStatus.all : List ExecutionStatus :=
  [.pending, .inProgress, .paused, .completedSuccess, .completedFailure,
   .skipped, .aborted, .error, .blocked, .awaitingInput, .notApplicable]

/-- `current_activity_type` union
(`'PreCheck' | 'SingleDeviceTest' | 'InterlockTest'`) from
`task-debug-state.model.ts` line 85. -/
inductive ActivityType where
  | preCheck
  | singleDeviceTest
  | interlockTest
deriving DecidableEq, Repr

/-- Execution state of one pre-check item, translated from
`PreCheckItemExecutionState` (`task-debug-state.model.ts` lines 28–37). -/
structure PreCheckItemExecutionState where
  item_id : String
  current_status : ExecutionStatus
  actual_value : Option Json
  checked_by : Option String
  checked_at : Option Int
  comments : Option String
  photos : Option (List String)
deriving Repr

/-- Execution state of one single-device test step, translated from
`SingleTestStepExecutionState` (`task-debug-state.model.ts` lines 43–52). -/
structure SingleTestStepExecutionState where
  step_id : String
  current_status : ExecutionStatus
  command_sent_at : Option Int
  feedback_received_at : Option Int
  feedback_data : Option Json
  execution_logs : Option (List String)
  error_details : Option String
deriving Repr

/-- Execution state of one interlock test case, translated from
`InterlockTestCaseExecutionState` (`task-debug-state.model.ts` lines 58–68). -/
structure InterlockTestCaseExecutionState where
  case_id : String
  current_status : ExecutionStatus
  preconditions_met : Option Bool
  trigger_action_executed_at : Option Int
  outcome_observed_at : Option Int
  observed_outcome_points : Option (List (String × Json))
  execution_logs : Option (List String)
  error_details : Option String
deriving Repr

/-- The shared Task State document, translated field-for-field from the
`TaskDebugState` interface of `task-debug-state.model.ts` (lines 74–115).
TypeScript index-signature maps are embedded as association lists. -/
structure TaskDebugState where
  task_id : String
  group_id : String
  last_updated_by_client_id : Option String
  last_updated_by_role : Option String
  last_update_timestamp : Int
  overall_task_status : ExecutionStatus
  current_activity_type : Option ActivityType
  active_pre_check_template_id : Option String
  active_single_device_test_template_id : Option String
  active_single_device_instance_id : Option String
  active_interlock_test_template_id : Option String
  general_debug_notes : Option String
  custom_shared_data : Option (List (String × Json))
  pre_check_items : Option (List (String × PreCheckItemExecutionState))
  current_pre_check_item_id : Option String
  pre_check_overall_status : ExecutionStatus
  single_test_steps : Option (List (String × SingleTestStepExecutionState))
  current_single_test_step_id : Option String
  single_test_overall_status : ExecutionStatus
  interlock_test_cases : Option (List (String × InterlockTestCaseExecutionState))
  current_interlock_test_case_id : Option String
  interlock_test_overall_status : ExecutionStatus
deriving Repr

/-! ### Wire codec for the Task State document

Modelled from the spec: the wire format carries the entire Task State document
as a tagged JSON envelope payload, and "encoding then decoding a Task State
snapshot yields a value equal in all fields to the original".  The Rust
serialization code (`common_models` / `serde_json`) is not part of the shipped
source tree, so the codec below is modelled from the specification: one JSON
object field per document field, in declaration order.  `Option` fields encode
`none` as JSON `null`; fields of JSON type themselves are wrapped in a
one-element array so that presence stays distinguishable from a `null` value.
-/

/-- Encode an optional string (`null` for `none`). -/
def encodeOptStr : Option String → Json
  | none => Json.null
  | some s => Json.str s

/-- Decode an optional string. -/
def decodeOptStr : Json → Option (Option String)
  | Json.null => some none
  | Json.str s => some (some s)
  | _ => none

/-- Encode an optional number (`null` for `none`). -/
def encodeOptInt : Option Int → Json
  | none => Json.null
  | some n => Json.num n

/-- Decode an optional number. -/
def decodeOptInt : Json → Option (Option Int)
  | Json.null => some none
  | Json.num n => some (some n)
  | _ => none

/-- Encode an optional boolean (`null` for `none`). -/
def encodeOptBool : Option Bool → Json
  | none => Json.null
  | some b => Json.bool b

/-- Decode an optional boolean. -/
def decodeOptBool : Json → Option (Option Bool)
  | Json.null => some none
  | Json.bool b => some (some b)
  | _ => none

/-- Encode an optional free-form JSON value; a present value is wrapped in a
one-element array so `some Json.null` stays distinct from `none`. -/
def encodeOptJson : Option Json → Json
  | none => Json.null
  | some v => Json.arr [v]

/-- Decode an optional free-form JSON value. -/
def decodeOptJson : Json → Option (Option Json)
  | Json.null => some none
  | Json.arr [v] => some (some v)
  | _ => none

/-- Decode a list of JSON values all of which must be strings. -/
def decodeStrItems : List Json → Option (List String)
  | [] => some []
  | Json.str s :: rest => (decodeStrItems rest).map (s :: ·)
  | _ => none

/-- Encode an optional string list. -/
def encodeOptStrList : Option (List String) → Json
  | none => Json.null
  | some l => Json.arr (l.map Json.str)

/-- Decode an optional string list. -/
def decodeOptStrList : Json → Option (Option (List String))
  | Json.null => some none
  | Json.arr items => (decodeStrItems items).map some
  | _ => none

/-- Encode an `ExecutionStatus` as its wire string. -/
def encodeStatus (s : ExecutionStatus) : Json :=
  Json.str s.wire

/-- Decode an `ExecutionStatus` from its wire string. -/
def decodeStatus : Json → Option ExecutionStatus
  | Json.str "PENDING" => some .pending
  | Json.str "IN_PROGRESS" => some .inProgress
  | Json.str "PAUSED" => some .paused
  | Json.str "COMPLETED_SUCCESS" => some .completedSuccess
  | Json.str "COMPLETED_FAILURE" => some .completedFailure
  | Json.str "SKIPPED" => some .skipped
  | Json.str "ABORTED" => some .aborted
  | Json.str "ERROR" => some .error
  | Json.str "BLOCKED" => some .blocked
  | Json.str "AWAITING_INPUT" => some .awaitingInput
  | Json.str "NOT_APPLICABLE" => some .notApplicable
  | _ => none

/-- The wire string of each `ActivityType` member, as written in the
TypeScript union for `current_activity_type`. -/
def ActivityType.wire : ActivityType → String
  | .preCheck => "PreCheck"
  | .singleDeviceTest => "SingleDeviceTest"
  | .interlockTest => "InterlockTest"

/-- Encode the optional current-activity pointer. -/
def encodeOptActivity : Option ActivityType → Json
  | none => Json.null
  | some a => Json.str a.wire

/-- Decode the optional current-activity pointer. -/
def decodeOptActivity : Json → Option (Option ActivityType)
  | Json.null => some none
  | Json.str "PreCheck" => some (some .preCheck)
  | Json.str "SingleDeviceTest" => some (some .singleDeviceTest)
  | Json.str "InterlockTest" => some (some .interlockTest)
  | _ => none

/-- Encode an optional JSON-valued map (e.g. `custom_shared_data`). -/
def encodeOptJsonMap : Option (List (String × Json)) → Json
  | none => Json.null
  | some l => Json.obj l

/-- Decode an optional JSON-valued map. -/
def decodeOptJsonMap : Json → Option (Option (List (String × Json)))
  | Json.null => some none
  | Json.obj fields => some (some fields)
  | _ => none

/-- Decode each value of a JSON object's field list with `dec`, keeping keys. -/
def decodeObjItems (dec : Json → Option α) :
    List (String × Json) → Option (List (String × α))
  | [] => some []
  | (k, j) :: rest =>
    match dec j, decodeObjItems dec rest with
    | some v, some vs => some ((k, v) :: vs)
    | _, _ => none

/-- Encode an optional map of encodable values as a JSON object. -/
def encodeOptMap (enc : α → Json) : Option (List (String × α)) → Json
  | none => Json.null
  | some l => Json.obj (l.map fun p => (p.1, enc p.2))

/-- Decode an optional map of decodable values from a JSON object. -/
def decodeOptMap (dec : Json → Option α) : Json → Option (Option (List (String × α)))
  | Json.null => some none
  | Json.obj fields => (decodeObjItems dec fields).map some
  | _ => none

/-- Encode one pre-check item execution state, field per key. -/
def encodePreCheckItem (i : PreCheckItemExecutionState) : Json :=
  Json.obj [("item_id", Json.str i.item_id),
    ("current_status", encodeStatus i.current_status),
    ("actual_value", encodeOptJson i.actual_value),
    ("checked_by", encodeOptStr i.checked_by),
    ("checked_at", encodeOptInt i.checked_at),
    ("comments", encodeOptStr i.comments),
    ("photos", encodeOptStrList i.photos)]

/-- Decode one pre-check item execution state. -/
def decodePreCheckItem : Json → Option PreCheckItemExecutionState
  | Json.obj [("item_id", Json.str item_id),
      ("current_status", j2),
      ("actual_value", j3),
      ("checked_by", j4),
      ("checked_at", j5),
      ("comments", j6),
      ("photos", j7)] => do
    let current_status ← decodeStatus j2
    let actual_value ← decodeOptJson j3
    let checked_by ← decodeOptStr j4
    let checked_at ← decodeOptInt j5
    let comments ← decodeOptStr j6
    let photos ← decodeOptStrList j7
    some { item_id, current_status, actual_value, checked_by, checked_at,
           comments, photos }
  | _ => none

/-- Encode one single-device test step execution state. -/
def encodeSingleTestStep (i : SingleTestStepExecutionState) : Json :=
  Json.obj [("step_id", Json.str i.step_id),
    ("current_status", encodeStatus i.current_status),
    ("command_sent_at", encodeOptInt i.command_sent_at),
    ("feedback_received_at", encodeOptInt i.feedback_received_at),
    ("feedback_data", encodeOptJson i.feedback_data),
    ("execution_logs", encodeOptStrList i.execution_logs),
    ("error_details", encodeOptStr i.error_details)]

/-- Decode one single-device test step execution state. -/
def decodeSingleTestStep : Json → Option SingleTestStepExecutionState
  | Json.obj [("step_id", Json.str step_id),
      ("current_status", j2),
      ("command_sent_at", j3),
      ("feedback_received_at", j4),
      ("feedback_data", j5),
      ("execution_logs", j6),
      ("error_details", j7)] => do
    let current_status ← decodeStatus j2
    let command_sent_at ← decodeOptInt j3
    let feedback_received_at ← decodeOptInt j4
    let feedback_data ← decodeOptJson j5
    let execution_logs ← decodeOptStrList j6
    let error_details ← decodeOptStr j7
    some { step_id, current_status, command_sent_at, feedback_received_at,
           feedback_data, execution_logs, error_details }
  | _ => none

/-- Encode one interlock test case execution state. -/
def encodeInterlockCase (i : InterlockTestCaseExecutionState) : Json :=
  Json.obj [("case_id", Json.str i.case_id),
    ("current_status", encodeStatus i.current_status),
    ("preconditions_met", encodeOptBool i.preconditions_met),
    ("trigger_action_executed_at", encodeOptInt i.trigger_action_executed_at),
    ("outcome_observed_at", encodeOptInt i.outcome_observed_at),
    ("observed_outcome_points", encodeOptJsonMap i.observed_outcome_points),
    ("execution_logs", encodeOptStrList i.execution_logs),
    ("error_details", encodeOptStr i.error_details)]

/-- Decode one interlock test case execution state. -/
def decodeInterlockCase : Json → Option InterlockTestCaseExecutionState
  | Json.obj [("case_id", Json.str case_id),
      ("current_status", j2),
      ("preconditions_met", j3),
      ("trigger_action_executed_at", j4),
      ("outcome_observed_at", j5),
      ("observed_outcome_points", j6),
      ("execution_logs", j7),
      ("error_details", j8)] => do
    let current_status ← decodeStatus j2
    let preconditions_met ← decodeOptBool j3
    let trigger_action_executed_at ← decodeOptInt j4
    let outcome_observed_at ← decodeOptInt j5
    let observed_outcome_points ← decodeOptJsonMap j6
    let execution_logs ← decodeOptStrList j7
    let error_details ← decodeOptStr j8
    some { case_id, current_status, preconditions_met,
           trigger_action_executed_at, outcome_observed_at,
           observed_outcome_points, execution_logs, error_details }
  | _ => none

theorem decodeOptStr_encodeOptStr (o : Option String) :
    decodeOptStr (encodeOptStr o) = some o := by cases o <;> rfl

theorem decodeOptInt_encodeOptInt (o : Option Int) :
    decodeOptInt (encodeOptInt o) = some o := by cases o <;> rfl

theorem decodeOptBool_encodeOptBool (o : Option Bool) :
    decodeOptBool (encodeOptBool o) = some o := by cases o <;> rfl

theorem decodeOptJson_encodeOptJson (o : Option Json) :
    decodeOptJson (encodeOptJson o) = some o := by cases o <;> rfl

theorem decodeStrItems_map (l : List String) :
    decodeStrItems (l.map Json.str) = some l := by
  induction l with
  | nil => rfl
  | cons h t ih => simp [decodeStrItems, ih]

theorem decodeOptStrList_encodeOptStrList (o : Option (List String)) :
    decodeOptStrList (encodeOptStrList o) = some o := by
  cases o with
  | none => rfl
  | some l => simp [encodeOptStrList, decodeOptStrList, decodeStrItems_map]

theorem decodeStatus_encodeStatus (s : ExecutionStatus) :
    decodeStatus (encodeStatus s) = some s := by cases s <;> rfl

theorem decodeOptActivity_encodeOptActivity (o : Option ActivityType) :
    decodeOptActivity (encodeOptActivity o) = some o := by
  cases o with
  | none => rfl
  | some a => cases a <;> rfl

theorem decodeOptJsonMap_encodeOptJsonMap (o : Option (List (String × Json))) :
    decodeOptJsonMap (encodeOptJsonMap o) = some o := by cases o <;> rfl

theorem decodeObjItems_encodeMap (dec : Json → Option α) (enc : α → Json)
    (h : ∀ a, dec (enc a) = some a) (l : List (String × α)) :
    decodeObjItems dec (l.map fun p => (p.1, enc p.2)) = some l := by
  induction l with
  | nil => rfl
  | cons p t ih => simp [decodeObjItems, h, ih]

theorem decodeOptMap_encodeOptMap (dec : Json → Option α) (enc : α → Json)
    (h : ∀ a, dec (enc a) = some a) (o : Option (List (String × α))) :
    decodeOptMap dec (encodeOptMap enc o) = some o := by
  cases o with
  | none => rfl
  | some l => simp [encodeOptMap, decodeOptMap, decodeObjItems_encodeMap dec enc h]

theorem decodePreCheckItem_encodePreCheckItem (i : PreCheckItemExecutionState) :
    decodePreCheckItem (encodePreCheckItem i) = some i := by
  cases i
  simp [encodePreCheckItem, decodePreCheckItem, decodeStatus_encodeStatus,
    decodeOptJson_encodeOptJson, decodeOptStr_encodeOptStr,
    decodeOptInt_encodeOptInt, decodeOptStrList_encodeOptStrList]

theorem decodeSingleTestStep_encodeSingleTestStep (i : SingleTestStepExecutionState) :
    decodeSingleTestStep (encodeSingleTestStep i) = some i := by
  cases i
  simp [encodeSingleTestStep, decodeSingleTestStep, decodeStatus_encodeStatus,
    decodeOptJson_encodeOptJson, decodeOptStr_encodeOptStr,
    decodeOptInt_encodeOptInt, decodeOptStrList_encodeOptStrList]

theorem decodeInterlockCase_encodeInterlockCase (i : InterlockTestCaseExecutionState) :
    decodeInterlockCase (encodeInterlockCase i) = some i := by
  cases i
  simp [encodeInterlockCase, decodeInterlockCase, decodeStatus_encodeStatus,
    decodeOptBool_encodeOptBool, decodeOptStr_encodeOptStr,
    decodeOptInt_encodeOptInt, decodeOptStrList_encodeOptStrList,
    decodeOptJsonMap_encodeOptJsonMap]

/-- Encode the whole Task State document as a JSON object, one key per field,
in declaration order. -/
def encodeTaskDebugState (s : TaskDebugState) : Json :=
  Json.obj [("task_id", Json.str s.task_id),
    ("group_id", Json.str s.group_id),
    ("last_updated_by_client_id", encodeOptStr s.last_updated_by_client_id),
    ("last_updated_by_role", encodeOptStr s.last_updated_by_role),
    ("last_update_timestamp", Json.num s.last_update_timestamp),
    ("overall_task_status", encodeStatus s.overall_task_status),
    ("current_activity_type", encodeOptActivity s.current_activity_type),
    ("active_pre_check_template_id", encodeOptStr s.active_pre_check_template_id),
    ("active_single_device_test_template_id",
      encodeOptStr s.active_single_device_test_template_id),
    ("active_single_device_instance_id",
      encodeOptStr s.active_single_device_instance_id),
    ("active_interlock_test_template_id",
      encodeOptStr s.active_interlock_test_template_id),
    ("general_debug_notes", encodeOptStr s.general_debug_notes),
    ("custom_shared_data", encodeOptJsonMap s.custom_shared_data),
    ("pre_check_items", encodeOptMap encodePreCheckItem s.pre_check_items),
    ("current_pre_check_item_id", encodeOptStr s.current_pre_check_item_id),
    ("pre_check_overall_status", encodeStatus s.pre_check_overall_status),
    ("single_test_steps", encodeOptMap encodeSingleTestStep s.single_test_steps),
    ("current_single_test_step_id", encodeOptStr s.current_single_test_step_id),
    ("single_test_overall_status", encodeStatus s.single_test_overall_status),
    ("interlock_test_cases", encodeOptMap encodeInterlockCase s.interlock_test_cases),
    ("current_interlock_test_case_id", encodeOptStr s.current_interlock_test_case_id),
    ("interlock_test_overall_status", encodeStatus s.interlock_test_overall_status)]

/-- Decode a required string value. -/
def decodeStr : Json → Option String
  | Json.str s => some s
  | _ => none

/-- Decode a required number value. -/
def decodeNum : Json → Option Int
  | Json.num n => some n
  | _ => none

/-- Consume the next field of a JSON object's field list: it must carry the
expected key, and its value must decode with `dec`.  Returns the decoded value
and the remaining fields. -/
def nextField (key : String) (dec : Json → Option α)
    (fields : List (String × Json)) : Option (α × List (String × Json)) :=
  match fields with
  | (k, j) :: rest => if k = key then (dec j).map (fun v => (v, rest)) else none
  | [] => none

/-- Decode the metadata fields of the Task State document. -/
def decodeTaskMeta (fields : List (String × Json)) :
    Option ((String × String × Option String × Option String × Int) ×
      List (String × Json)) :=
  (nextField "task_id" decodeStr fields).bind fun p1 =>
  (nextField "group_id" decodeStr p1.2).bind fun p2 =>
  (nextField "last_updated_by_client_id" decodeOptStr p2.2).bind fun p3 =>
  (nextField "last_updated_by_role" decodeOptStr p3.2).bind fun p4 =>
  (nextField "last_update_timestamp" decodeNum p4.2).bind fun p5 =>
  some ((p1.1, p2.1, p3.1, p4.1, p5.1), p5.2)

/-- Decode the top-level status/control fields of the Task State document. -/
def decodeTaskTop (fields : List (String × Json)) :
    Option ((ExecutionStatus × Option ActivityType × Option String ×
      Option String × Option String × Option String) × List (String × Json)) :=
  (nextField "overall_task_status" decodeStatus fields).bind fun p1 =>
  (nextField "current_activity_type" decodeOptActivity p1.2).bind fun p2 =>
  (nextField "active_pre_check_template_id" decodeOptStr p2.2).bind fun p3 =>
  (nextField "active_single_device_test_template_id" decodeOptStr p3.2).bind fun p4 =>
  (nextField "active_single_device_instance_id" decodeOptStr p4.2).bind fun p5 =>
  (nextField "active_interlock_test_template_id" decodeOptStr p5.2).bind fun p6 =>
  some ((p1.1, p2.1, p3.1, p4.1, p5.1, p6.1), p6.2)

/-- Decode the notes and free-form extension fields of the Task State document. -/
def decodeTaskNotes (fields : List (String × Json)) :
    Option ((Option String × Option (List (String × Json))) ×
      List (String × Json)) :=
  (nextField "general_debug_notes" decodeOptStr fields).bind fun p1 =>
  (nextField "custom_shared_data" decodeOptJsonMap p1.2).bind fun p2 =>
  some ((p1.1, p2.1), p2.2)

/-- Decode the pre-check phase fields of the Task State document. -/
def decodeTaskPreCheck (fields : List (String × Json)) :
    Option ((Option (List (String × PreCheckItemExecutionState)) ×
      Option String × ExecutionStatus) × List (String × Json)) :=
  (nextField "pre_check_items" (decodeOptMap decodePreCheckItem) fields).bind fun p1 =>
  (nextField "current_pre_check_item_id" decodeOptStr p1.2).bind fun p2 =>
  (nextField "pre_check_overall_status" decodeStatus p2.2).bind fun p3 =>
  some ((p1.1, p2.1, p3.1), p3.2)

/-- Decode the single-device test phase fields of the Task State document. -/
def decodeTaskSingle (fields : List (String × Json)) :
    Option ((Option (List (String × SingleTestStepExecutionState)) ×
      Option String × ExecutionStatus) × List (String × Json)) :=
  (nextField "single_test_steps" (decodeOptMap decodeSingleTestStep) fields).bind fun p1 =>
  (nextField "current_single_test_step_id" decodeOptStr p1.2).bind fun p2 =>
  (nextField "single_test_overall_status" decodeStatus p2.2).bind fun p3 =>
  some ((p1.1, p2.1, p3.1), p3.2)

/-- Decode the interlock test phase fields of the Task State document. -/
def decodeTaskInterlock (fields : List (String × Json)) :
    Option ((Option (List (String × InterlockTestCaseExecutionState)) ×
      Option String × ExecutionStatus) × List (String × Json)) :=
  (nextField "interlock_test_cases" (decodeOptMap decodeInterlockCase) fields).bind fun p1 =>
  (nextField "current_interlock_test_case_id" decodeOptStr p1.2).bind fun p2 =>
  (nextField "interlock_test_overall_status" decodeStatus p2.2).bind fun p3 =>
  some ((p1.1, p2.1, p3.1), p3.2)

/-- Decode the whole Task State document from its JSON object form, reading
the fields in declaration order and requiring no trailing fields. -/
def decodeTaskDebugState : Json → Option TaskDebugState
  | Json.obj fields =>
    (decodeTaskMeta fields).bind fun m =>
    (decodeTaskTop m.2).bind fun t =>
    (decodeTaskNotes t.2).bind fun nt =>
    (decodeTaskPreCheck nt.2).bind fun pc =>
    (decodeTaskSingle pc.2).bind fun st =>
    (decodeTaskInterlock st.2).bind fun il =>
    (match il.2 with | [] => some () | _ => none).bind fun _ =>
    some { task_id := m.1.1, group_id := m.1.2.1,
           last_updated_by_client_id := m.1.2.2.1,
           last_updated_by_role := m.1.2.2.2.1,
           last_update_timestamp := m.1.2.2.2.2,
           overall_task_status := t.1.1,
           current_activity_type := t.1.2.1,
           active_pre_check_template_id := t.1.2.2.1,
           active_single_device_test_template_id := t.1.2.2.2.1,
           active_single_device_instance_id := t.1.2.2.2.2.1,
           active_interlock_test_template_id := t.1.2.2.2.2.2,
           general_debug_notes := nt.1.1,
           custom_shared_data := nt.1.2,
           pre_check_items := pc.1.1,
           current_pre_check_item_id := pc.1.2.1,
           pre_check_overall_status := pc.1.2.2,
           single_test_steps := st.1.1,
           current_single_test_step_id := st.1.2.1,
           single_test_overall_status := st.1.2.2,
           interlock_test_cases := il.1.1,
           current_interlock_test_case_id := il.1.2.1,
           interlock_test_overall_status := il.1.2.2 }
  | _ => none

/-- C5: encoding a Task State snapshot to the wire format and decoding the
result yields the original snapshot in all fields. -/
theorem taskDebugState_wire_roundtrip (s : TaskDebugState) :
    decodeTaskDebugState (encodeTaskDebugState s) = some s := by
  simp [encodeTaskDebugState, decodeTaskDebugState, decodeTaskMeta,
    decodeTaskTop, decodeTaskNotes, decodeTaskPreCheck, decodeTaskSingle,
    decodeTaskInterlock, nextField, decodeStr, decodeNum,
    decodeOptStr_encodeOptStr, decodeOptInt_encodeOptInt,
    decodeStatus_encodeStatus, decodeOptActivity_encodeOptActivity,
    decodeOptJsonMap_encodeOptJsonMap,
    decodeOptMap_encodeOptMap decodePreCheckItem encodePreCheckItem
      decodePreCheckItem_encodePreCheckItem,
    decodeOptMap_encodeOptMap decodeSingleTestStep encodeSingleTestStep
      decodeSingleTestStep_encodeSingleTestStep,
    decodeOptMap_encodeOptMap decodeInterlockCase encodeInterlockCase
      decodeInterlockCase_encodeInterlockCase]

/-! ### The spec-enumerated components of the Task State document (C6, C7) -/

/-- The components of the Task State document exactly as the specification
enumerates them (§3 "Task State"): overall status, a current-activity
pointer, free-form notes, a free-form structured extension field, three
execution maps, the last-writer identity/role stamp and the last-update
timestamp. -/
structure TaskStateSpecComponents where
  overall_status : ExecutionStatus
  current_activity : Option ActivityType
  notes : Option String
  extension : Option (List (String × Json))
  pre_check_items : Option (List (String × PreCheckItemExecutionState))
  single_test_steps : Option (List (String × SingleTestStepExecutionState))
  interlock_test_cases : Option (List (String × InterlockTestCaseExecutionState))
  writer_id : Option String
  writer_role : Option String
  timestamp : Int
deriving Repr

/-- Project the spec-enumerated components out of a Task State document. -/
def taskStateComponents (s : TaskDebugState) : TaskStateSpecComponents :=
  { overall_status := s.overall_task_status,
    current_activity := s.current_activity_type,
    notes := s.general_debug_notes,
    extension := s.custom_shared_data,
    pre_check_items := s.pre_check_items,
    single_test_steps := s.single_test_steps,
    interlock_test_cases := s.interlock_test_cases,
    writer_id := s.last_updated_by_client_id,
    writer_role := s.last_updated_by_role,
    timestamp := s.last_update_timestamp }

/-- Build a Task State document realizing given spec-enumerated components,
with the document's remaining fields at fixed defaults. -/
def taskStateOfComponents (c : TaskStateSpecComponents) : TaskDebugState :=
  { task_id := "", group_id := "",
    last_updated_by_client_id := c.writer_id,
    last_updated_by_role := c.writer_role,
    last_update_timestamp := c.timestamp,
    overall_task_status := c.overall_status,
    current_activity_type := c.current_activity,
    active_pre_check_template_id := none,
    active_single_device_test_template_id := none,
    active_single_device_instance_id := none,
    active_interlock_test_template_id := none,
    general_debug_notes := c.notes,
    custom_shared_data := c.extension,
    pre_check_items := c.pre_check_items,
    current_pre_check_item_id := none,
    pre_check_overall_status := .pending,
    single_test_steps := c.single_test_steps,
    current_single_test_step_id := none,
    single_test_overall_status := .pending,
    interlock_test_cases := c.interlock_test_cases,
    current_interlock_test_case_id := none,
    interlock_test_overall_status := .pending }

/-- A concrete Task State document with every optional field absent. -/
def exampleTaskState : TaskDebugState :=
  { task_id := "test_task_001", group_id := "test_group_01",
    last_updated_by_client_id := none,
    last_updated_by_role := none,
    last_update_timestamp := 0,
    overall_task_status := .pending,
    current_activity_type := none,
    active_pre_check_template_id := none,
    active_single_device_test_template_id := none,
    active_single_device_instance_id := none,
    active_interlock_test_template_id := none,
    general_debug_notes := none,
    custom_shared_data := none,
    pre_check_items := none,
    current_pre_check_item_id := none,
    pre_check_overall_status := .pending,
    single_test_steps := none,
    current_single_test_step_id := none,
    single_test_overall_status := .pending,
    interlock_test_cases := none,
    current_interlock_test_case_id := none,
    interlock_test_overall_status := .pending }

/-- `exampleTaskState` with only the pre-check phase status advanced — a field
outside the spec-enumerated component list. -/
def exampleTaskStateVariant : TaskDebugState :=
  { exampleTaskState with pre_check_overall_status := .inProgress }

/-- C6 counterexample: the Task State document does not consist *exactly* of
the spec-enumerated components — two distinct documents (differing in
`pre_check_overall_status`) project to the same enumerated components, so the
document carries components beyond the enumerated ones. -/
theorem taskState_components_not_exact :
    taskStateComponents exampleTaskState =
      taskStateComponents exampleTaskStateVariant ∧
    exampleTaskState ≠ exampleTaskStateVariant := by
  refine ⟨rfl, fun h => ?_⟩
  have h2 := congrArg TaskDebugState.pre_check_overall_status h
  exact absurd h2 (by decide)

/-- C6 (amended): the Task State document contains all the spec-enumerated
components — every combination of overall status, activity pointer, notes,
extension field, the three execution maps, writer stamp and timestamp is
realized by a document from which the projection recovers it exactly — but
the document also carries further fields (task/group identifiers, active
template and instance identifiers, per-phase current-item pointers and
per-phase overall statuses). -/
theorem taskState_components_complete (c : TaskStateSpecComponents) :
    taskStateComponents (taskStateOfComponents c) = c := rfl

/-- C7: the per-item execution status type shared by the three execution maps
is exactly the closed 11-value set {Pending, InProgress, Paused,
CompletedSuccess, CompletedFailure, Skipped, Aborted, Error, Blocked,
AwaitingInput, NotApplicable}: the enumeration lists 11 pairwise-distinct
values (with pairwise-distinct wire strings) and every status is one of them. -/
theorem executionStatus_exactly_eleven :
    ExecutionStatus.all.length = 11 ∧ ExecutionStatus.all.Nodup ∧
    (∀ s : ExecutionStatus, s ∈ ExecutionStatus.all) ∧
    (ExecutionStatus.all.map ExecutionStatus.wire).Nodup := by
  refine ⟨rfl, by decide, fun s => by cases s <;> decide, by decide⟩

/-! ### Frontend services and components (C8, C9, C10) -/

/-- Result object of the Tauri backend commands, translated from the
`GenericResponse` interface of `debug.service.ts` (both apps). -/
structure GenericResponse where
  success : Bool
  message : String
deriving DecidableEq, Repr

/-- Outcome of the `invoke` call to the Tauri backend: the underlying promise
either resolves with a `GenericResponse` or rejects with an arbitrary
JavaScript value (embedded as `Json`). -/
inductive InvokeOutcome where
  | resolved (r : GenericResponse)
  | rejected (e : Json)
deriving Repr

/-- The JavaScript test `typeof error === 'string'`. -/
def Json.isString : Json → Bool
  | .str _ => true
  | _ => false

/-- The fixed fallback failure response of the debug-note service methods. -/
def unknownErrorResponse : GenericResponse :=
  { success := false, message := "Unknown error sending debug note." }

/-- `DebugService.sendDebugNoteFromSite` (SatOnSiteMobile
`debug.service.ts` lines 16–30) and `DebugService.sendDebugNote`
(SatControlCenter `debug.service.ts` lines 16–30), whose bodies are
identical: await the invoke and return its response; in the catch branch
return a failure `GenericResponse` whose message is the thrown error when
that error is a string and the fixed fallback text otherwise.  The returned
promise is embedded as `Except Json GenericResponse`: a `.error` value would
be a rejected promise. -/
def sendDebugNote (outcome : InvokeOutcome) : Except Json GenericResponse :=
  match outcome with
  | .resolved r => .ok r
  | .rejected e =>
    match e with
    | .str s => .ok { success := false, message := s }
    | _ => .ok unknownErrorResponse

/-- C8: for every invoke outcome the debug-note service method resolves to a
`GenericResponse` and never rejects; on a string-typed rejection the message
is the thrown string, and on a non-string rejection it is the fixed fallback
text. -/
theorem sendDebugNote_always_resolves (outcome : InvokeOutcome) :
    (∃ r, sendDebugNote outcome = .ok r) ∧
    (∀ r, outcome = .resolved r → sendDebugNote outcome = .ok r) ∧
    (∀ s, outcome = .rejected (Json.str s) →
      sendDebugNote outcome = .ok { success := false, message := s }) ∧
    (∀ e, outcome = .rejected e → e.isString = false →
      sendDebugNote outcome = .ok unknownErrorResponse) := by
  refine ⟨?_, ?_, ?_, ?_⟩
  · cases outcome with
    | resolved r => exact ⟨r, rfl⟩
    | rejected e => cases e <;> exact ⟨_, rfl⟩
  · rintro r rfl; rfl
  · rintro s rfl; rfl
  · rintro e rfl h; cases e <;> simp_all [sendDebugNote, Json.isString]

/-- Witness for C8 at a concrete non-string rejection. -/
theorem sendDebugNote_always_resolves_witness :
    sendDebugNote (.rejected Json.null) = .ok unknownErrorResponse :=
  (sendDebugNote_always_resolves (.rejected Json.null)).2.2.2 Json.null rfl rfl

/-- Payload of `local_task_state_updated_event`, translated from
`LocalTaskStateUpdatedEventPayload`; a payload whose `new_state` member is
missing or null (falsy in the listener's truthiness test) is embedded as
`none`. -/
structure LocalTaskStateUpdatedEventPayload where
  new_state : Option TaskDebugState

/-- One received Tauri event; `none` embeds an event whose whole payload is
missing/falsy. -/
abbrev TaskStateEvent := Option LocalTaskStateUpdatedEventPayload

/-- The listener body of `ClientTaskStateService.initializeTauriListener`
(`client-task-state.service.ts` lines 42–60): the subject is advanced to
`event.payload.new_state` exactly when `event.payload &&
event.payload.new_state` is truthy; otherwise it is left unchanged. -/
def handleTaskStateEvent (cur : Option TaskDebugState) (ev : TaskStateEvent) :
    Option TaskDebugState :=
  match ev with
  | some payload =>
    match payload.new_state with
    | some s => some s
    | none => cur
  | none => cur

/-- The value of `taskStateSubject` — what `getCurrentStateSnapshot()`
returns — after a sequence of received events, starting from the initial
`null`. -/
def taskStateAfter (evs : List TaskStateEvent) : Option TaskDebugState :=
  evs.foldl handleTaskStateEvent none

/-- The `new_state` of the most recent event in the list that carries a valid
payload with a valid `new_state`, if any. -/
def lastValidNewState : List TaskStateEvent → Option TaskDebugState
  | [] => none
  | ev :: rest =>
    match lastValidNewState rest with
    | some s => some s
    | none => ev.bind LocalTaskStateUpdatedEventPayload.new_state

theorem foldl_handleTaskStateEvent (evs : List TaskStateEvent) :
    ∀ cur, evs.foldl handleTaskStateEvent cur =
      match lastValidNewState evs with
      | some s => some s
      | none => cur := by
  induction evs with
  | nil => intro cur; rfl
  | cons ev rest ih =>
    intro cur
    simp only [List.foldl_cons, ih, lastValidNewState]
    cases hrest : lastValidNewState rest with
    | some s => rfl
    | none =>
      cases ev with
      | none => rfl
      | some p => cases hp : p.new_state <;> simp [handleTaskStateEvent, hp]

/-- C9: the published snapshot equals the `new_state` of the most recent
event carrying a valid payload and `new_state`; it is `null` before the first
valid event, and an event with a missing payload or missing `new_state`
leaves the published state unchanged. -/
theorem clientTaskState_snapshot (evs : List TaskStateEvent) :
    taskStateAfter [] = none ∧
    taskStateAfter evs = lastValidNewState evs ∧
    (∀ cur, handleTaskStateEvent cur none = cur) ∧
    (∀ cur, handleTaskStateEvent cur (some ⟨none⟩) = cur) := by
  refine ⟨rfl, ?_, fun cur => rfl, fun cur => rfl⟩
  rw [taskStateAfter, foldl_handleTaskStateEvent]
  cases lastValidNewState evs <;> rfl

/-- UI state of `DebugSenderComponent` relevant to `sendNote`. -/
structure DebugSenderState where
  isLoading : Bool
  apiResponse : Option GenericResponse
deriving DecidableEq, Repr

/-- The outcome of one `sendNote` run: whether the backend command was
invoked, and the component state when the method completes. -/
structure SendNoteRun where
  invoked : Bool
  final : DebugSenderState
deriving DecidableEq, Repr

/-- The failure response for missing inputs in `sendNote`. -/
def emptyInputsResponse : GenericResponse :=
  { success := false, message := "Group ID and Note cannot be empty." }

/-- The failure response for unparseable custom shared data in `sendNote`. -/
def invalidJsonResponse : GenericResponse :=
  { success := false, message := "Invalid JSON format for Custom Shared Data." }

/-- `DebugSenderComponent.sendNote`, basic variant
(`debug-sender.component.ts` lines 21–41): on an empty `groupId` or
`debugNote` (JavaScript falsiness of a string) it sets a failure
`apiResponse` and returns without touching `isLoading`; otherwise it sets
`isLoading`, calls the debug service — which always resolves with a
`GenericResponse` — stores the response and clears `isLoading`. -/
def sendNoteBasic (groupId debugNote : String) (svcResponse : GenericResponse)
    (s0 : DebugSenderState) : SendNoteRun :=
  if groupId = "" ∨ debugNote = "" then
    { invoked := false,
      final := { s0 with apiResponse := some emptyInputsResponse } }
  else
    { invoked := true,
      final := { isLoading := false, apiResponse := some svcResponse } }

/-- `DebugSenderComponent.sendNote`, custom-shared-data variant
(`debug-sender.component.ts` lines 64–97): as the basic variant, but when
`customSharedDataString` trims to a non-empty string it must parse as JSON
(`JSON.parse`, embedded as the `parseJson` parameter) before the service is
called; a parse failure sets the invalid-JSON failure response and clears
`isLoading` without calling the backend. -/
def sendNoteCustom (groupId debugNote customSharedDataString : String)
    (parseJson : String → Option Json) (svcResponse : GenericResponse)
    (s0 : DebugSenderState) : SendNoteRun :=
  if groupId = "" ∨ debugNote = "" then
    { invoked := false,
      final := { s0 with apiResponse := some emptyInputsResponse } }
  else if customSharedDataString.trim ≠ "" ∧
      (parseJson customSharedDataString).isNone = true then
    { invoked := false,
      final := { isLoading := false, apiResponse := some invalidJsonResponse } }
  else
    { invoked := true,
      final := { isLoading := false, apiResponse := some svcResponse } }

/-- C10: `sendNote` invokes the backend exactly when both inputs are
non-empty and (custom variant) the custom data string is empty after trimming
or parses as JSON; in every other case no backend call is made, the method
sets the matching failure response, and `isLoading` is false when the method
completes (from a non-loading start state). -/
theorem debugSender_sendNote_guard (groupId debugNote customStr : String)
    (parseJson : String → Option Json) (svc : GenericResponse)
    (s0 : DebugSenderState) (h0 : s0.isLoading = false) :
    ((sendNoteCustom groupId debugNote customStr parseJson svc s0).invoked =
        true ↔
      groupId ≠ "" ∧ debugNote ≠ "" ∧
        (customStr.trim = "" ∨ (parseJson customStr).isSome = true)) ∧
    ((sendNoteBasic groupId debugNote svc s0).invoked = true ↔
      groupId ≠ "" ∧ debugNote ≠ "") ∧
    (groupId = "" ∨ debugNote = "" →
      sendNoteCustom groupId debugNote customStr parseJson svc s0 =
        ⟨false, ⟨false, some emptyInputsResponse⟩⟩ ∧
      sendNoteBasic groupId debugNote svc s0 =
        ⟨false, ⟨false, some emptyInputsResponse⟩⟩) ∧
    (groupId ≠ "" → debugNote ≠ "" → customStr.trim ≠ "" →
      parseJson customStr = none →
      sendNoteCustom groupId debugNote customStr parseJson svc s0 =
        ⟨false, ⟨false, some invalidJsonResponse⟩⟩) := by
  obtain ⟨l0, r0⟩ := s0
  cases h0
  refine ⟨?_, ?_, ?_, ?_⟩
  · by_cases hg : groupId = "" <;> by_cases hd : debugNote = "" <;>
      by_cases ht : customStr.trim = "" <;> cases hp : parseJson customStr <;>
      simp [sendNoteCustom, hg, hd, ht, hp]
  · by_cases hg : groupId = "" <;> by_cases hd : debugNote = "" <;>
      simp [sendNoteBasic, hg, hd]
  · intro h
    unfold sendNoteCustom sendNoteBasic
    rw [if_pos h, if_pos h]
    exact ⟨rfl, rfl⟩
  · intro h1 h2 h3 h4
    unfold sendNoteCustom
    rw [if_neg (by tauto), if_pos ⟨h3, by simp [h4]⟩]

/-- Witness for C10 at concrete inputs: an empty group id suppresses the
backend call and sets the missing-inputs failure response. -/
theorem debugSender_sendNote_guard_witness :
    sendNoteCustom "" "note" "{}" (fun _ => none) ⟨true, "ok"⟩ ⟨false, none⟩ =
      ⟨false, ⟨false, some emptyInputsResponse⟩⟩ :=
  ((debugSender_sendNote_guard "" "note" "{}" (fun _ => none) ⟨true, "ok"⟩
    ⟨false, none⟩ rfl).2.2.1 (Or.inl rfl)).1

/-! ### The relay-hub core (C1–C4)

The hub — Session Registry, Group Manager, Task State Store and Message
Router — runs in the `SatCloudService` Rust backend (its `ws_server` module),
whose sources are not part of the shipped tree; only its TypeScript callers
and the architecture documents are.  The definitions below are therefore
modelled from the specification (§§2–7), as marked on each one.
-/

/-- Modelled from the spec: the closed set of two peer roles that must be
paired 1:1 within a Group (§1, glossary "Role"). -/
inductive HubRole where
  | control
  | field
deriving DecidableEq, Repr

/-- Session identifier (opaque id, §3 "Session"). -/
abbrev SessionId := String

/-- Modelled from the spec: a Group is keyed by (group identifier, task
identifier) (§3 "Group"). -/
structure GroupKey where
  groupId : String
  taskId : String
deriving DecidableEq, Repr

/-- Modelled from the spec: the member list of one Group — the Sessions
currently bound into the Group's role slots (§3 "Group", §4.2). -/
abbrev GroupMembers := List (SessionId × HubRole)

/-- The live session currently holding role `r` in the member list. -/
def occupant (members : GroupMembers) (r : HubRole) : Option SessionId :=
  (members.find? (fun m => m.2 == r)).map (fun m => m.1)

/-- Modelled from the spec: join failure — the requested role slot is already
occupied by a live session (§4.2, §7(d)). -/
inductive JoinError where
  | slotOccupied
deriving DecidableEq, Repr

/-- Modelled from the spec: `join` binds the session into the group's role
slot if that slot is empty, and fails with `SlotOccupied` otherwise —
registration is rejected, not queued (§4.2). -/
def joinGroup (members : GroupMembers) (sid : SessionId) (r : HubRole) :
    Except JoinError GroupMembers :=
  match occupant members r with
  | some _ => .error .slotOccupied
  | none => .ok (members ++ [(sid, r)])

/-- Modelled from the spec: `leave` clears the session's slot (§4.2). -/
def leaveGroup (members : GroupMembers) (sid : SessionId) : GroupMembers :=
  members.filter (fun m => m.1 != sid)

/-- A join or leave operation on one Group key. -/
inductive GroupOp where
  | join (sid : SessionId) (r : HubRole)
  | leave (sid : SessionId)

/-- Apply one operation to the member list; a rejected join leaves the
membership unchanged. -/
def applyGroupOp (members : GroupMembers) : GroupOp → GroupMembers
  | .join sid r =>
    match joinGroup members sid r with
    | .ok m => m
    | .error _ => members
  | .leave sid => leaveGroup members sid

/-- The membership of one Group key after a sequence of join/leave
operations, starting from the freshly created (empty) Group. -/
def runGroupOps (ops : List GroupOp) : GroupMembers :=
  ops.foldl applyGroupOp []

/-- Role exclusivity of a member list: no two member entries hold the same
role slot. -/
def rolesExclusive (members : GroupMembers) : Prop :=
  members.Pairwise (fun a b => a.2 ≠ b.2)

theorem occupant_eq_none_iff (members : GroupMembers) (r : HubRole) :
    occupant members r = none ↔ ∀ m ∈ members, m.2 ≠ r := by
  simp [occupant, List.find?_eq_none]

theorem rolesExclusive_applyGroupOp (members : GroupMembers) (op : GroupOp)
    (h : rolesExclusive members) : rolesExclusive (applyGroupOp members op) := by
  cases op with
  | join sid r =>
    simp only [applyGroupOp, joinGroup]
    cases hocc : occupant members r with
    | some s => exact h
    | none =>
      simp only []
      rw [rolesExclusive, List.pairwise_append]
      refine ⟨h, List.pairwise_singleton _ _, ?_⟩
      intro a ha b hb
      rw [List.mem_singleton] at hb
      subst hb
      exact (occupant_eq_none_iff members r).mp hocc a ha
  | leave sid =>
    exact List.Pairwise.sublist (List.filter_sublist _) h

theorem rolesExclusive_foldl (ops : List GroupOp) :
    ∀ members, rolesExclusive members →
      rolesExclusive (ops.foldl applyGroupOp members) := by
  induction ops with
  | nil => intro members h; exact h
  | cons op rest ih =>
    intro members h
    exact ih _ (rolesExclusive_applyGroupOp members op h)

/-- C1: for every sequence of join/leave operations on a Group key the
resulting membership never holds two live sessions in the same role slot,
and a join request for an occupied role slot fails with `SlotOccupied`,
leaving the membership — in particular the existing occupant — unchanged. -/
theorem group_role_exclusivity (ops : List GroupOp) :
    rolesExclusive (runGroupOps ops) ∧
    (∀ sid r, (occupant (runGroupOps ops) r).isSome = true →
      joinGroup (runGroupOps ops) sid r = .error .slotOccupied ∧
      applyGroupOp (runGroupOps ops) (.join sid r) = runGroupOps ops) := by
  refine ⟨rolesExclusive_foldl ops [] List.Pairwise.nil, ?_⟩
  intro sid r h
  rw [Option.isSome_iff_exists] at h
  obtain ⟨s, hs⟩ := h
  constructor
  · rw [joinGroup, hs]
  · rw [applyGroupOp, joinGroup, hs]

/-- Witness for C1: after F joins as Field, a second Field join by F2 is
rejected with `SlotOccupied` and the membership is unchanged. -/
theorem group_role_exclusivity_witness :
    joinGroup (runGroupOps [GroupOp.join "F" HubRole.field]) "F2" HubRole.field =
      .error .slotOccupied ∧
    applyGroupOp (runGroupOps [GroupOp.join "F" HubRole.field])
      (.join "F2" HubRole.field) = runGroupOps [GroupOp.join "F" HubRole.field] :=
  (group_role_exclusivity [GroupOp.join "F" HubRole.field]).2 "F2" HubRole.field
    (by decide)

/-- Modelled from the spec: one mutation request handled by the Task State
Store — writer identity and role, the pure mutation function, and the server
clock reading at the moment the mutation is applied (§4.4). -/
structure MutationReq where
  writerId : String
  writerRole : String
  mutation : TaskDebugState → TaskDebugState
  now : Int

/-- Modelled from the spec: `mutate` applies the pure transformation under
the group's critical section and stamps the last-writer identity/role and a
fresh server-assigned timestamp that never falls below the stored one (§3
"Task State": "a strictly non-decreasing timestamp (server-assigned, not
client-supplied)", §4.4). -/
def mutateTaskState (cur : TaskDebugState) (req : MutationReq) : TaskDebugState :=
  let m := req.mutation cur
  { m with
    last_updated_by_client_id := some req.writerId,
    last_updated_by_role := some req.writerRole,
    last_update_timestamp := max req.now cur.last_update_timestamp }

/-- The successive broadcast snapshots produced by a sequence of accepted
mutations: every accepted mutation broadcasts the full new snapshot (§4.4). -/
def broadcastSnapshots (cur : TaskDebugState) :
    List MutationReq → List TaskDebugState
  | [] => []
  | req :: rest =>
    mutateTaskState cur req :: broadcastSnapshots (mutateTaskState cur req) rest

theorem mutateTaskState_ts_ge (cur : TaskDebugState) (req : MutationReq) :
    cur.last_update_timestamp ≤ (mutateTaskState cur req).last_update_timestamp :=
  le_max_right _ _

theorem broadcastSnapshots_head_ge (cur : TaskDebugState)
    (reqs : List MutationReq) :
    ∀ s ∈ (broadcastSnapshots cur reqs).head?,
      cur.last_update_timestamp ≤ s.last_update_timestamp := by
  cases reqs with
  | nil => intro s hs; cases hs
  | cons req rest =>
    intro s hs
    rw [broadcastSnapshots, List.head?_cons, Option.mem_def,
      Option.some_inj] at hs
    subst hs
    exact mutateTaskState_ts_ge cur req

theorem broadcastSnapshots_chain' (reqs : List MutationReq) :
    ∀ cur, List.Chain'
      (fun a b => a.last_update_timestamp ≤ b.last_update_timestamp)
      (broadcastSnapshots cur reqs) := by
  induction reqs with
  | nil => intro cur; exact List.chain'_nil
  | cons req rest ih =>
    intro cur
    rw [broadcastSnapshots, List.chain'_cons']
    exact ⟨broadcastSnapshots_head_ge _ rest, ih _⟩

theorem broadcastSnapshots_writer_populated (reqs : List MutationReq) :
    ∀ cur, ∀ s ∈ broadcastSnapshots cur reqs,
      s.last_updated_by_client_id.isSome = true ∧
      s.last_updated_by_role.isSome = true := by
  induction reqs with
  | nil => intro cur s hs; cases hs
  | cons req rest ih =>
    intro cur s hs
    rw [broadcastSnapshots, List.mem_cons] at hs
    cases hs with
    | inl h => subst h; exact ⟨rfl, rfl⟩
    | inr h => exact ih _ s h

/-- C2: across every sequence of accepted mutations on a Group, each
successive pair of broadcast snapshots has a non-decreasing
`last_update_timestamp`, and every accepted snapshot carries a populated
last-writer identity and role. -/
theorem taskState_version_monotone (init : TaskDebugState)
    (reqs : List MutationReq) :
    List.Chain' (fun a b => a.last_update_timestamp ≤ b.last_update_timestamp)
      (broadcastSnapshots init reqs) ∧
    (∀ s ∈ broadcastSnapshots init reqs,
      s.last_updated_by_client_id.isSome = true ∧
      s.last_updated_by_role.isSome = true) :=
  ⟨broadcastSnapshots_chain' reqs init,
   broadcastSnapshots_writer_populated reqs init⟩

/-- A concrete mutation request: the field peer sets the debug note. -/
def exampleMutationReq : MutationReq :=
  { writerId := "client-F", writerRole := "OnSiteMobile",
    mutation := fun s => { s with general_debug_notes := some "valve closed" },
    now := 100 }

/-- Witness for C2 at a concrete mutation: the accepted snapshot's writer
identity and role are populated. -/
theorem taskState_version_monotone_witness :
    (mutateTaskState exampleTaskState
        exampleMutationReq).last_updated_by_client_id.isSome = true ∧
    (mutateTaskState exampleTaskState
        exampleMutationReq).last_updated_by_role.isSome = true :=
  (taskState_version_monotone exampleTaskState [exampleMutationReq]).2
    (mutateTaskState exampleTaskState exampleMutationReq)
    (List.mem_singleton.mpr rfl)

/-- The wire string of each hub role. -/
def HubRole.wire : HubRole → String
  | .control => "Control"
  | .field => "Field"

/-- The opposite role slot of a role. -/
def HubRole.other : HubRole → HubRole
  | .control => .field
  | .field => .control

/-- Modelled from the spec: the hub's shared state — the session table with
each joined session's group key and role, the Group membership table and the
per-group Task State store (§2, §3). -/
structure HubState where
  sessions : List (SessionId × Option (GroupKey × HubRole))
  groups : List (GroupKey × GroupMembers)
  tasks : List (GroupKey × TaskDebugState)
deriving Repr

/-- The group key and role a session is currently joined under, if any. -/
def sessionGroup (st : HubState) (sid : SessionId) : Option (GroupKey × HubRole) :=
  (st.sessions.find? (fun p => p.1 == sid)).bind (fun p => p.2)

/-- Look up a Group's member list (empty if the Group does not exist yet). -/
def lookupGroup (groups : List (GroupKey × GroupMembers)) (gk : GroupKey) :
    GroupMembers :=
  ((groups.find? (fun p => p.1 == gk)).map (fun p => p.2)).getD []

/-- Replace (or insert) a Group's member list. -/
def setGroupMembers (groups : List (GroupKey × GroupMembers)) (gk : GroupKey)
    (m : GroupMembers) : List (GroupKey × GroupMembers) :=
  match groups with
  | [] => [(gk, m)]
  | (k, v) :: rest =>
    if k == gk then (k, m) :: rest else (k, v) :: setGroupMembers rest gk m

/-- Look up a Group's Task State, if it has one. -/
def lookupTask (tasks : List (GroupKey × TaskDebugState)) (gk : GroupKey) :
    Option TaskDebugState :=
  (tasks.find? (fun p => p.1 == gk)).map (fun p => p.2)

/-- Replace (or insert) a Group's Task State. -/
def setTask (tasks : List (GroupKey × TaskDebugState)) (gk : GroupKey)
    (s : TaskDebugState) : List (GroupKey × TaskDebugState) :=
  match tasks with
  | [] => [(gk, s)]
  | (k, v) :: rest =>
    if k == gk then (k, s) :: rest else (k, v) :: setTask rest gk s

/-- Replace (or insert) a session's group association. -/
def setSession (sessions : List (SessionId × Option (GroupKey × HubRole)))
    (sid : SessionId) (v : Option (GroupKey × HubRole)) :
    List (SessionId × Option (GroupKey × HubRole)) :=
  match sessions with
  | [] => [(sid, v)]
  | (k, w) :: rest =>
    if k == sid then (k, v) :: rest else (k, w) :: setSession rest sid v

/-- Modelled from the spec: the default Task State a Group receives on its
first mutation (§4.4). -/
def defaultTaskState (gk : GroupKey) : TaskDebugState :=
  { exampleTaskState with task_id := gk.taskId, group_id := gk.groupId }

/-- Modelled from the spec: the outbound notifications the router emits (§6
tag catalog). -/
inductive Notification where
  | errorNotification (reason : String)
  | registrationStatus (success : Bool) (message : String)
  | partnerStatus (partnerRole : HubRole) (isOnline : Bool)
  | taskStateSnapshot (state : TaskDebugState)
  | echoResponse (content : String)
deriving Repr

/-- The envelope: the sole unit of wire communication, a type tag plus an
opaque payload whose shape the tag determines (§3 "Envelope", §6). -/
structure Envelope where
  message_type : String
  payload : Json
deriving Repr

/-- Modelled from the spec: the catalog of recognized inbound message tags
(§6: registration request, connection probe, echo request, debug-note/custom
data mutation request). -/
def recognizedTags : List String :=
  ["Register", "Heartbeat", "Echo", "UpdateDebugNote"]

/-- A decoded inbound message, the result of two-phase decoding (tag first,
then tag-specific payload, §3 "Envelope"). -/
inductive InboundMsg where
  | register (gk : GroupKey) (role : HubRole)
  | heartbeat
  | echo (content : String)
  | updateDebugNote (note : String) (customData : Option (List (String × Json)))
deriving Repr

/-- Decode a role wire string. -/
def decodeRole : Json → Option HubRole
  | Json.str "Control" => some .control
  | Json.str "Field" => some .field
  | _ => none

/-- Modelled from the spec: tag-specific payload decoding against the tag's
schema (§4.5 "payload decodes against the tag's schema"). -/
def decodePayload (env : Envelope) : Option InboundMsg :=
  if env.message_type = "Register" then
    match env.payload with
    | Json.obj [("group_id", Json.str g), ("task_id", Json.str t), ("role", r)] =>
      (decodeRole r).map (fun role => .register ⟨g, t⟩ role)
    | _ => none
  else if env.message_type = "Heartbeat" then
    match env.payload with
    | Json.obj [] => some .heartbeat
    | _ => none
  else if env.message_type = "Echo" then
    match env.payload with
    | Json.obj [("content", Json.str c)] => some (.echo c)
    | _ => none
  else if env.message_type = "UpdateDebugNote" then
    match env.payload with
    | Json.obj [("new_note", Json.str n), ("custom_shared_data", cd)] =>
      (decodeOptJsonMap cd).map (fun c => .updateDebugNote n c)
    | _ => none
  else none

/-- Modelled from the spec: dispatch of one decoded inbound message (§4.5):
join/control tags go to the Group Manager with asynchronous status
notifications, state-mutating tags go to the Task State Store with a
broadcast of the full new snapshot to every current member, and pass-through
self-test tags loop back to the sender with no state mutation. -/
def dispatch (st : HubState) (sender : SessionId) (now : Int) :
    InboundMsg → HubState × List (SessionId × Notification)
  | .register gk role =>
    match joinGroup (lookupGroup st.groups gk) sender role with
    | .error .slotOccupied =>
      (st, [(sender, .registrationStatus false "SlotOccupied")])
    | .ok m =>
      ({ sessions := setSession st.sessions sender (some (gk, role)),
         groups := setGroupMembers st.groups gk m,
         tasks := st.tasks },
       (sender, .registrationStatus true "Registered") ::
         (match occupant (lookupGroup st.groups gk) role.other with
          | some partner =>
            [(partner, .partnerStatus role true),
             (sender, .partnerStatus role.other true)]
          | none => []))
  | .heartbeat => (st, [])
  | .echo content => (st, [(sender, .echoResponse content)])
  | .updateDebugNote note customData =>
    match sessionGroup st sender with
    | none => (st, [(sender, .errorNotification "not registered")])
    | some (gk, role) =>
      let cur := (lookupTask st.tasks gk).getD (defaultTaskState gk)
      let req : MutationReq :=
        { writerId := sender, writerRole := role.wire,
          mutation := fun s =>
            { s with
              general_debug_notes := some note,
              custom_shared_data :=
                match customData with
                | some c => some c
                | none => s.custom_shared_data },
          now := now }
      let newState := mutateTaskState cur req
      ({ st with tasks := setTask st.tasks gk newState },
       (lookupGroup st.groups gk).map (fun m => (m.1, .taskStateSnapshot newState)))

/-- Modelled from the spec: the Message Router validates each inbound
envelope — the tag must be recognized and the payload must decode against the
tag's schema — and only then dispatches; an unknown tag or a schema mismatch
is rejected with an error notification to the sender and no state change
(§4.5, §6, §7(b)). -/
def routeEnvelope (st : HubState) (sender : SessionId) (now : Int)
    (env : Envelope) : HubState × List (SessionId × Notification) :=
  if env.message_type ∈ recognizedTags then
    match decodePayload env with
    | some msg => dispatch st sender now msg
    | none => (st, [(sender, .errorNotification "payload schema mismatch")])
  else
    (st, [(sender, .errorNotification "unknown message type")])

/-- The hub state with no sessions, groups or task states. -/
def emptyHubState : HubState :=
  { sessions := [], groups := [], tasks := [] }

/-- C3: an inbound envelope whose tag is not in the recognized catalog is
rejected with an error notification sent back to the sender only, and the
hub state — groups and task states included — is left unchanged; a
recognized tag whose payload fails to decode against its schema is treated
the same way. -/
theorem router_rejects_unknown_and_malformed (st : HubState)
    (sender : SessionId) (now : Int) (env : Envelope) :
    (env.message_type ∉ recognizedTags →
      routeEnvelope st sender now env =
        (st, [(sender, .errorNotification "unknown message type")])) ∧
    (env.message_type ∈ recognizedTags → decodePayload env = none →
      routeEnvelope st sender now env =
        (st, [(sender, .errorNotification "payload schema mismatch")])) := by
  constructor
  · intro h
    rw [routeEnvelope, if_neg h]
  · intro h1 h2
    rw [routeEnvelope, if_pos h1, h2]

/-- Witness for C3: an unknown tag and a malformed echo payload are both
rejected with the respective error notification, leaving the state as is. -/
theorem router_rejects_unknown_and_malformed_witness :
    routeEnvelope emptyHubState "C" 0 ⟨"Bogus", Json.null⟩ =
      (emptyHubState, [("C", .errorNotification "unknown message type")]) ∧
    routeEnvelope emptyHubState "C" 0 ⟨"Echo", Json.null⟩ =
      (emptyHubState, [("C", .errorNotification "payload schema mismatch")]) :=
  ⟨(router_rejects_unknown_and_malformed emptyHubState "C" 0
      ⟨"Bogus", Json.null⟩).1 (by decide),
   (router_rejects_unknown_and_malformed emptyHubState "C" 0
      ⟨"Echo", Json.null⟩).2 (by decide) rfl⟩

/-- The echo (self-test) request envelope carrying the given content. -/
def echoEnvelope (content : String) : Envelope :=
  ⟨"Echo", Json.obj [("content", Json.str content)]⟩

/-- C4: an echo request from a joined session produces exactly one outbound
notification — the echo reply carrying the request's content, addressed to
the sending session — so any other session (in particular the partner in
the same Group) receives nothing, and the hub state, every Task State
included, is unchanged. -/
theorem echo_reply_only_to_sender (st : HubState) (sender : SessionId)
    (now : Int) (content : String) (gk : GroupKey) (role : HubRole)
    (hjoined : sessionGroup st sender = some (gk, role)) :
    routeEnvelope st sender now (echoEnvelope content) =
      (st, [(sender, .echoResponse content)]) ∧
    (∀ other, other ≠ sender →
      (routeEnvelope st sender now (echoEnvelope content)).2.filter
        (fun d => d.1 == other) = []) := by
  have hroute : routeEnvelope st sender now (echoEnvelope content) =
      (st, [(sender, .echoResponse content)]) := rfl
  refine ⟨hroute, ?_⟩
  intro other hother
  rw [hroute]
  simp [List.filter_cons, Ne.symm hother]

/-- A concrete hub state in which session C is joined as Control of
(g1, t1). -/
def exampleJoinedHubState : HubState :=
  { sessions := [("C", some (⟨"g1", "t1"⟩, HubRole.control))],
    groups := [(⟨"g1", "t1"⟩, [("C", HubRole.control)])],
    tasks := [] }

/-- Witness for C4: C's "ping" echo is answered to C only, with the state
unchanged. -/
theorem echo_reply_only_to_sender_witness :
    routeEnvelope exampleJoinedHubState "C" 0 (echoEnvelope "ping") =
      (exampleJoinedHubState, [("C", .echoResponse "ping")]) :=
  (echo_reply_only_to_sender exampleJoinedHubState "C" 0 "ping" ⟨"g1", "t1"⟩
    HubRole.control rfl).1
